import Mathlib

/-!
Verification development for the DNS-01 challenge provisioning subsystem:
the provider factory (`providers/dns/dns_providers.go`) and the Gandi
transactional zone editor exercised by its recorded XML-RPC test session
(`gandi` package test).  Pure functions are embedded directly; the remote
Gandi service is embedded as an explicit server state threaded through the
provider operations, and every remote call is recorded in a trace.
-/

set_option maxRecDepth 10000

/-! ## SHA-256 over byte lists (FIPS 180-4), used to derive the DNS-01
record value from the key authorization, and base64url (RFC 4648 url-safe,
unpadded) encoding.  All arithmetic is `Nat` reduced mod 2^32. -/

def w32 (n : Nat) : Nat := n % 4294967296

def rotr (n x : Nat) : Nat := w32 ((x >>> n) ||| (x <<< (32 - n)))

def sha256Ch (x y z : Nat) : Nat := (x &&& y) ^^^ ((x ^^^ 4294967295) &&& z)

def sha256Maj (x y z : Nat) : Nat := (x &&& y) ^^^ (x &&& z) ^^^ (y &&& z)

def bigSigma0 (x : Nat) : Nat := (rotr 2 x) ^^^ (rotr 13 x) ^^^ (rotr 22 x)

def bigSigma1 (x : Nat) : Nat := (rotr 6 x) ^^^ (rotr 11 x) ^^^ (rotr 25 x)

def smallSigma0 (x : Nat) : Nat := (rotr 7 x) ^^^ (rotr 18 x) ^^^ (x >>> 3)

def smallSigma1 (x : Nat) : Nat := (rotr 17 x) ^^^ (rotr 19 x) ^^^ (x >>> 10)

/-- The 64 round constants, written in decimal. -/
def sha256K : List Nat :=
  [1116352408, 1899447441, 3049323471, 3921009573, 961987163,
   1508970993, 2453635748, 2870763221, 3624381080, 310598401,
   607225278, 1426881987, 1925078388, 2162078206, 2614888103,
   3248222580, 3835390401, 4022224774, 264347078, 604807628,
   770255983, 1249150122, 1555081692, 1996064986, 2554220882,
   2821834349, 2952996808, 3210313671, 3336571891, 3584528711,
   113926993, 338241895, 666307205, 773529912, 1294757372,
   1396182291, 1695183700, 1986661051, 2177026350, 2456956037,
   2730485921, 2820302411, 3259730800, 3345764771, 3516065817,
   3600352804, 4094571909, 275423344, 430227734, 506948616,
   659060556, 883997877, 958139571, 1322822218, 1537002063,
   1747873779, 1955562222, 2024104815, 2227730452, 2361852424,
   2428436474, 2756734187, 3204031479, 3329325298]

/-- The eight initial hash words, written in decimal. -/
def sha256H0 : List Nat :=
  [1779033703, 3144134277, 1013904242, 2773480762,
   1359893119, 2600822924, 528734635, 1541459225]

/-- Big-endian byte decomposition of `v` into `n` bytes. -/
def beBytes (n v : Nat) : List Nat :=
  (List.range n).map (fun i => (v >>> (8 * (n - 1 - i))) % 256)

/-- Message padding: append `0x80`, zero bytes to 56 mod 64, then the
64-bit big-endian bit length. -/
def sha256Pad (msg : List Nat) : List Nat :=
  let padZeros := (64 + 55 - msg.length % 64) % 64
  msg ++ [0x80] ++ List.replicate padZeros 0 ++ beBytes 8 (msg.length * 8)

/-- Split the padded message into 16-word big-endian blocks. -/
def sha256Blocks (padded : List Nat) : List (List Nat) :=
  (List.range (padded.length / 64)).map (fun b =>
    (List.range 16).map (fun j =>
      let at4 := fun k => padded.getD (64 * b + 4 * j + k) 0
      (at4 0) * 16777216 + (at4 1) * 65536 + (at4 2) * 256 + at4 3))

/-- Extend a 16-word block to the 64-word message schedule. -/
def sha256Schedule (block : List Nat) : List Nat :=
  (List.range 48).foldl (fun ws _ =>
    let t := ws.length
    ws ++ [w32 (smallSigma1 (ws.getD (t - 2) 0) + ws.getD (t - 7) 0 +
                smallSigma0 (ws.getD (t - 15) 0) + ws.getD (t - 16) 0)]) block

/-- One SHA-256 compression step over the eight-word working state. -/
def sha256Round (st : Nat × Nat × Nat × Nat × Nat × Nat × Nat × Nat)
    (kw : Nat × Nat) : Nat × Nat × Nat × Nat × Nat × Nat × Nat × Nat :=
  let (a, b, c, d, e, f, g, h) := st
  let t1 := w32 (h + bigSigma1 e + sha256Ch e f g + kw.1 + kw.2)
  let t2 := w32 (bigSigma0 a + sha256Maj a b c)
  (w32 (t1 + t2), a, b, c, w32 (d + t1), e, f, g)

/-- Compress one block into the running hash value. -/
def sha256Compress (hv block : List Nat) : List Nat :=
  let ws := sha256Schedule block
  let g := fun i => hv.getD i 0
  let (a, b, c, d, e, f, gg, h) :=
    (sha256K.zip ws).foldl sha256Round (g 0, g 1, g 2, g 3, g 4, g 5, g 6, g 7)
  [w32 (g 0 + a), w32 (g 1 + b), w32 (g 2 + c), w32 (g 3 + d),
   w32 (g 4 + e), w32 (g 5 + f), w32 (g 6 + gg), w32 (g 7 + h)]

/-- SHA-256 digest of a byte list, as 32 bytes. -/
def sha256 (msg : List Nat) : List Nat :=
  ((sha256Blocks (sha256Pad msg)).foldl sha256Compress sha256H0).foldr
    (fun word acc => beBytes 4 word ++ acc) []

def base64UrlAlphabet : List Char :=
  ("ABCDEFGHIJKLMNOPQRSTUVWXYZabcdefghijklmnopqrstuvwxyz0123456789-_").data

def b64Char (n : Nat) : Char := base64UrlAlphabet.getD n 'A'

/-- Unpadded url-safe base64 of a byte list (RFC 4648 `RawURLEncoding`). -/
def base64UrlEncode : List Nat → List Char
  | [] => []
  | [b0] => [b64Char (b0 >>> 2), b64Char ((b0 % 4) * 16)]
  | [b0, b1] =>
    [b64Char (b0 >>> 2), b64Char ((b0 % 4) * 16 + (b1 >>> 4)),
     b64Char ((b1 % 16) * 4)]
  | b0 :: b1 :: b2 :: rest =>
    b64Char (b0 >>> 2) :: b64Char ((b0 % 4) * 16 + (b1 >>> 4)) ::
    b64Char ((b1 % 16) * 4 + (b2 >>> 6)) :: b64Char (b2 % 64) ::
    base64UrlEncode rest

/-- Modelled from the spec: the DNS-01 record value is "a fingerprint
derived from the token" — concretely (as pinned by the recorded test
session, whose `domain.zone.record.add` request carries the unpadded
url-safe base64 of the SHA-256 digest of the key authorization) the
base64url-encoded SHA-256 of the key authorization string.  The deriving
function itself (`acme.DNS01Record`) lives outside the sources in scope. -/
def dns01Fingerprint (keyAuth : String) : String :=
  String.mk (base64UrlEncode (sha256 (keyAuth.data.map Char.toNat)))

/-! ## Provider factory (`providers/dns/dns_providers.go`)

`NewDNSChallengeProviderByName` switches on the provider name; each
recognised case calls that provider's constructor (the constructors live in
per-provider packages outside the sources in scope, so they are abstracted
as the `construct` argument, invoked with the matched name), and the
default case returns the error `Unrecognised DNS provider: <name>`.  Go's
`(provider, err)` pair is embedded as `Except`: `.error` is the nil-provider
error outcome. -/

structure ChallengeProvider where
  providerName : String
deriving DecidableEq, Repr

/-- Error taxonomy relevant to the factory (spec section 7). -/
inductive FactoryError where
  | unsupportedProvider (message : String)
  | missingCredential (provider : String)
deriving DecidableEq, Repr

instance : DecidableEq (Except FactoryError ChallengeProvider) := fun a b =>
  match a, b with
  | .ok x, .ok y =>
    if h : x = y then isTrue (congrArg Except.ok h)
    else isFalse (fun e => h (Except.ok.inj e))
  | .error x, .error y =>
    if h : x = y then isTrue (congrArg Except.error h)
    else isFalse (fun e => h (Except.error.inj e))
  | .ok _, .error _ => isFalse (fun e => Except.noConfusion e)
  | .error _, .ok _ => isFalse (fun e => Except.noConfusion e)

def NewDNSChallengeProviderByName
    (construct : String → Except FactoryError ChallengeProvider)
    (name : String) : Except FactoryError ChallengeProvider :=
  if name = "azure" then construct name
  else if name = "auroradns" then construct name
  else if name = "cloudflare" then construct name
  else if name = "digitalocean" then construct name
  else if name = "dnsimple" then construct name
  else if name = "dnsmadeeasy" then construct name
  else if name = "dnspod" then construct name
  else if name = "dyn" then construct name
  else if name = "exoscale" then construct name
  else if name = "gandi" then construct name
  else if name = "gcloud" then construct name
  else if name = "linode" then construct name
  else if name = "manual" then construct name
  else if name = "namecheap" then construct name
  else if name = "rackspace" then construct name
  else if name = "route53" then construct name
  else if name = "rfc2136" then construct name
  else if name = "vultr" then construct name
  else if name = "ovh" then construct name
  else if name = "pdns" then construct name
  else if name = "ns1" then construct name
  else .error (.unsupportedProvider ("Unrecognised DNS provider: " ++ name))

/-- The 21 names recognised by the factory switch, in source order. -/
def validProviderNames : List String :=
  ["azure", "auroradns", "cloudflare", "digitalocean", "dnsimple",
   "dnsmadeeasy", "dnspod", "dyn", "exoscale", "gandi", "gcloud", "linode",
   "manual", "namecheap", "rackspace", "route53", "rfc2136", "vultr",
   "ovh", "pdns", "ns1"]

/-- Whether `p` is an initial segment of `l` (`beginsWith l p`). -/
def beginsWith : List Char → List Char → Bool
  | _, [] => true
  | [], _ :: _ => false
  | c :: cs, d :: ds => c = d && beginsWith cs ds

/-- Whether `needle` occurs contiguously in `hay` (`occursIn needle hay`);
used to ask whether an error message mentions a given name. -/
def occursIn (needle : List Char) : List Char → Bool
  | [] => beginsWith [] needle
  | c :: cs => beginsWith (c :: cs) needle || occursIn needle cs

/-- Modelled from the spec: the per-provider constructors (not in the
sources in scope) read their credentials from the environment and validate
them eagerly at build time, returning `MissingCredential` when a required
credential is absent or empty, before any `Present` call can happen.
`required` maps a provider name to its required credential variables. -/
def eagerConstruct (required : String → List String)
    (env : List (String × String)) (name : String) :
    Except FactoryError ChallengeProvider :=
  if (required name).all (fun v => ((env.lookup v).getD ("")) ≠ "") then
    .ok ⟨name⟩
  else
    .error (.missingCredential name)

/-! ## Zone locator

Modelled from the spec (the implementation, `acme.FindZoneByFqdn`, is not
in the sources in scope; the Gandi test overrides the package-level
`findZoneByFqdn` variable with a fake): starting from the full FQDN,
repeatedly strip the leftmost label and query for an authoritative SOA
record at that suffix; the first suffix that answers is the zone apex, and
the walk stops at the public top-level-domain boundary (a bare TLD is not
queried).  The SOA oracle abstracts the read-only network queries. -/

/-- Split a char list into dot-separated labels. -/
def splitLabelsAux : List Char → List Char → List (List Char)
  | [], acc => [acc.reverse]
  | c :: rest, acc =>
    if c = '.' then acc.reverse :: splitLabelsAux rest [] else
    splitLabelsAux rest (c :: acc)

def domainLabels (fqdn : String) : List (List Char) :=
  (splitLabelsAux fqdn.data []).filter (fun l => l ≠ [])

/-- Render a label list as an absolute (trailing-dot) domain name. -/
def joinLabels : List (List Char) → List Char
  | [] => []
  | l :: rest => l ++ '.' :: joinLabels rest

/-- The candidate zone apexes for an FQDN: its label suffixes from the
whole name down to (but excluding) the bare top-level domain, rendered
with a trailing dot, closest (longest) first. -/
def zoneCandidates (fqdn : String) : List String :=
  let labels := domainLabels fqdn
  (List.range (labels.length - 1)).map (fun i => String.mk (joinLabels (labels.drop i)))

def findZoneByFqdn (soa : String → Bool) (fqdn : String) : Option String :=
  (zoneCandidates fqdn).find? soa

/-! ## Gandi transactional zone editor

The Gandi provider implementation (`gandi.go`) is not among the sources in
scope — only its test, whose `serverResponses` map records a complete
XML-RPC session.  The editor below is modelled from the spec (sections 4.3
and 8) and from that recorded session: `Present` resolves the zone, reads
the domain's active zone id (`domain.info`), clones it
(`domain.zone.clone`), creates a working version (`domain.zone.version.new`),
adds the TXT record (`domain.zone.record.add`), activates the working
version (`domain.zone.version.set`), points the domain at the cloned zone
(`domain.zone.set`) and records the pending cleanup state; `CleanUp` points
the domain back at the pre-challenge zone and deletes the transient clone
(`domain.zone.delete`).  The remote service is an explicit state; every
remote call that can fault returns `Option`, and the list of issued calls
is returned as a trace. -/

structure TxtRecord where
  rtype : String
  rname : String
  rvalue : String
  rttl : Nat
deriving DecidableEq, Repr

structure ZoneVersion where
  vid : Nat
  vrecords : List TxtRecord
deriving DecidableEq, Repr

structure Zone where
  zid : Nat
  zname : String
  zversions : List ZoneVersion
  zactive : Nat
deriving DecidableEq, Repr

/-- The remote Gandi service state: which zone each domain serves, the
zones with their versions, and the id the next cloned zone will get. -/
structure ServerState where
  domains : List (String × Nat)
  zones : List Zone
  nextZoneId : Nat
deriving DecidableEq, Repr

inductive RpcCall where
  | domainInfo (domain : String)
  | zoneClone (zoneId : Nat)
  | zoneVersionNew (zoneId : Nat)
  | zoneRecordAdd (zoneId vers : Nat) (record : TxtRecord)
  | zoneVersionSet (zoneId vers : Nat)
  | zoneSet (domain : String) (zoneId : Nat)
  | zoneDelete (zoneId : Nat)
deriving DecidableEq, Repr

def getZone (srv : ServerState) (zoneId : Nat) : Option Zone :=
  srv.zones.find? (fun z => z.zid == zoneId)

def activeRecords (z : Zone) : List TxtRecord :=
  (((z.zversions.find? (fun v => v.vid == z.zactive)).map
    (fun v => v.vrecords)).getD [])

def updateZone (srv : ServerState) (zoneId : Nat) (f : Zone → Zone) :
    ServerState :=
  { srv with zones := srv.zones.map (fun z => if z.zid = zoneId then f z else z) }

/-- RPC `domain.info`: the zone id currently served for a domain. -/
def rpcDomainInfo (srv : ServerState) (domain : String) : Option Nat :=
  srv.domains.lookup domain

/-- RPC `domain.zone.clone`: copy the active version of a zone into a fresh
zone (one version, numbered 1, active), returning the new zone id. -/
def rpcZoneClone (srv : ServerState) (zoneId : Nat) (cloneName : String) :
    Option (Nat × ServerState) :=
  (getZone srv zoneId).map (fun z =>
    (srv.nextZoneId,
     { srv with
        zones := srv.zones ++ [⟨srv.nextZoneId, cloneName, [⟨1, activeRecords z⟩], 1⟩],
        nextZoneId := srv.nextZoneId + 1 }))

/-- RPC `domain.zone.version.new`: add a fresh working version (numbered one
past the largest existing version) copying the active version's records. -/
def rpcZoneVersionNew (srv : ServerState) (zoneId : Nat) :
    Option (Nat × ServerState) :=
  (getZone srv zoneId).map (fun z =>
    let nv := (z.zversions.map (fun v => v.vid)).foldr max 0 + 1
    (nv, updateZone srv zoneId (fun zz =>
      { zz with zversions := zz.zversions ++ [⟨nv, activeRecords zz⟩] })))

/-- RPC `domain.zone.record.add`: append a record to one version of a zone. -/
def rpcZoneRecordAdd (srv : ServerState) (zoneId vers : Nat) (r : TxtRecord) :
    Option ServerState :=
  match getZone srv zoneId with
  | none => none
  | some z =>
    if (z.zversions.find? (fun v => v.vid == vers)).isSome then
      some (updateZone srv zoneId (fun zz =>
        { zz with zversions := zz.zversions.map (fun v =>
            if v.vid = vers then { v with vrecords := v.vrecords ++ [r] } else v) }))
    else none

/-- RPC `domain.zone.version.set`: activate one version of a zone. -/
def rpcZoneVersionSet (srv : ServerState) (zoneId vers : Nat) :
    Option ServerState :=
  match getZone srv zoneId with
  | none => none
  | some z =>
    if (z.zversions.find? (fun v => v.vid == vers)).isSome then
      some (updateZone srv zoneId (fun zz => { zz with zactive := vers }))
    else none

/-- RPC `domain.zone.set`: point a domain at a zone. -/
def rpcZoneSet (srv : ServerState) (domain : String) (zoneId : Nat) :
    Option ServerState :=
  if (getZone srv zoneId).isSome ∧ (srv.domains.lookup domain).isSome then
    some { srv with domains := srv.domains.map (fun p =>
      if p.1 = domain then (p.1, zoneId) else p) }
  else none

/-- RPC `domain.zone.delete`: delete a zone. -/
def rpcZoneDelete (srv : ServerState) (zoneId : Nat) : Option ServerState :=
  if (getZone srv zoneId).isSome then
    some { srv with zones := srv.zones.filter (fun z => z.zid ≠ zoneId) }
  else none

/-- Pending cleanup state recorded by `Present` for the later `CleanUp`,
keyed by the challenge FQDN. -/
structure PendingInfo where
  authZone : String
  zoneId : Nat
  newZoneId : Nat
deriving DecidableEq, Repr

structure DNSProviderState where
  inProgress : List (String × PendingInfo)
deriving DecidableEq, Repr

/-- The minimum TTL the editor publishes the challenge record with, as in
the recorded `domain.zone.record.add` request. -/
def gandiTTL : Nat := 300

/-- Drop `suffix` from the end of `l`, or `none` when it is not a suffix. -/
def chopSuffix (l suffix : List Char) : Option (List Char) :=
  if suffix.length ≤ l.length ∧ l.drop (l.length - suffix.length) = suffix then
    some (l.take (l.length - suffix.length))
  else none

/-- The name the clone is created under (the recorded session uses the
apex plus an `[ACME Challenge <date>]` tag; the date is irrelevant here). -/
def zoneCloneName (apex : String) : String :=
  String.mk apex.data.dropLast ++ " [ACME Challenge]"

/-- The challenge FQDN for a domain. -/
def challengeFqdn (domain : String) : String :=
  "_acme-challenge." ++ domain ++ "."

/-- Modelled from the spec (sections 4.3, 8) and the recorded test session:
`Present` resolves the zone apex, chops it off the challenge FQDN to get
the relative record name, then performs, strictly in order, `domain.info`,
`domain.zone.clone`, `domain.zone.version.new`, `domain.zone.record.add`,
`domain.zone.version.set`, `domain.zone.set`, and finally records the
pending cleanup state. -/
def Present (findZone : String → Option String) (pst : DNSProviderState)
    (srv : ServerState) (domain keyAuth : String) :
    Option (DNSProviderState × ServerState × List RpcCall) :=
  match findZone (challengeFqdn domain) with
  | none => none
  | some authZone =>
    match chopSuffix (challengeFqdn domain).data ("." ++ authZone).data with
    | none => none
    | some nameChars =>
      match rpcDomainInfo srv authZone with
      | none => none
      | some zoneId =>
        match rpcZoneClone srv zoneId (zoneCloneName authZone) with
        | none => none
        | some (newZoneId, srv1) =>
          match rpcZoneVersionNew srv1 newZoneId with
          | none => none
          | some (vers, srv2) =>
            match rpcZoneRecordAdd srv2 newZoneId vers
                ⟨"TXT", String.mk nameChars, dns01Fingerprint keyAuth, gandiTTL⟩ with
            | none => none
            | some srv3 =>
              match rpcZoneVersionSet srv3 newZoneId vers with
              | none => none
              | some srv4 =>
                match rpcZoneSet srv4 authZone newZoneId with
                | none => none
                | some srv5 =>
                  some ({ inProgress := (challengeFqdn domain, ⟨authZone, zoneId, newZoneId⟩) :: pst.inProgress },
                        srv5,
                        [.domainInfo authZone, .zoneClone zoneId,
                         .zoneVersionNew newZoneId,
                         .zoneRecordAdd newZoneId vers
                           ⟨"TXT", String.mk nameChars, dns01Fingerprint keyAuth, gandiTTL⟩,
                         .zoneVersionSet newZoneId vers,
                         .zoneSet authZone newZoneId])

/-- Modelled from the spec (sections 4.3, 8): `CleanUp` looks up the
pending state for the challenge FQDN; when none exists (Present never
completed) it degrades to a non-fatal best-effort no-op, flagged by the
returned Bool; otherwise it points the domain back at the pre-challenge
zone and deletes the transient clone. -/
def CleanUp (pst : DNSProviderState) (srv : ServerState)
    (domain _keyAuth : String) :
    Option (Bool × DNSProviderState × ServerState × List RpcCall) :=
  match pst.inProgress.lookup (challengeFqdn domain) with
  | none => some (true, pst, srv, [])
  | some info =>
    match rpcZoneSet srv info.authZone info.zoneId with
    | none => none
    | some srv1 =>
      match rpcZoneDelete srv1 info.newZoneId with
      | none => none
      | some srv2 =>
        some (false,
              { inProgress := pst.inProgress.filter (fun p => p.1 ≠ challengeFqdn domain) },
              srv2,
              [.zoneSet info.authZone info.zoneId, .zoneDelete info.newZoneId])

/-! ## The recorded test scenario (`TestDNSProvider` and `serverResponses`)

The fake server's recorded session: the domain `example.com.` serves zone
`1234567`; the clone created by `Present` gets id `7654321` and working
version `2`; the added record is
`{name: _acme-challenge.abc.def, value: ezRpBPY8…, ttl: 300}`; `CleanUp`
sets the zone back to `1234567` and deletes `7654321`. -/

def testZone : Zone := ⟨1234567, "example.com", [⟨1, []⟩], 1⟩

def testServer : ServerState := ⟨[("example.com.", 1234567)], [testZone], 7654321⟩

/-- The test's `fakeFindZoneByFqdn`, which answers `example.com.` always. -/
def fakeFindZoneByFqdn : String → Option String := fun _ => some ("example.com.")

def testRecord : TxtRecord :=
  ⟨"TXT", "_acme-challenge.abc.def", "ezRpBPY8wH8djMLYjX2uCKPwiKDkFZ1SFMJ6ZXGlHrQ", 300⟩

/-- The transient zone as the recorded session leaves it after `Present`:
id `7654321`, working version `2` holding the challenge record, active. -/
def clonedZone : Zone :=
  ⟨7654321, "example.com [ACME Challenge]", [⟨1, []⟩, ⟨2, [testRecord]⟩], 2⟩

/-- The server state after the recorded `Present`. -/
def testServerAfterPresent : ServerState :=
  ⟨[("example.com.", 7654321)], [testZone, clonedZone], 7654322⟩

/-- The pending cleanup state after the recorded `Present`. -/
def testPendingAfterPresent : DNSProviderState :=
  ⟨[("_acme-challenge.abc.def.example.com.", ⟨"example.com.", 1234567, 7654321⟩)]⟩

/-- The six RPC calls of the recorded `Present`, in order. -/
def presentTrace : List RpcCall :=
  [.domainInfo ("example.com."), .zoneClone 1234567, .zoneVersionNew 7654321,
   .zoneRecordAdd 7654321 2 testRecord, .zoneVersionSet 7654321 2,
   .zoneSet ("example.com.") 7654321]

/-- The two RPC calls of the recorded `CleanUp`, in order. -/
def cleanUpTrace : List RpcCall :=
  [.zoneSet ("example.com.") 1234567, .zoneDelete 7654321]

/-- The server state after the recorded `CleanUp`: the domain serves zone
`1234567` again and the transient zone `7654321` is gone. -/
def testServerAfterCleanUp : ServerState :=
  ⟨[("example.com.", 1234567)], [testZone], 7654322⟩

/-! ## Helper lemmas -/

theorem chopSuffix_append (a b : List Char) : chopSuffix (a ++ b) b = some a := by
  unfold chopSuffix
  rw [if_pos]
  · rw [List.length_append, Nat.add_sub_cancel a.length b.length, List.take_left]
  · refine ⟨?_, ?_⟩
    · rw [List.length_append]; omega
    · rw [List.length_append, Nat.add_sub_cancel a.length b.length, List.drop_left]

theorem find?_split {α : Type} (p : α → Bool) (l : List α) :
    ∀ b, l.find? p = some b →
      p b = true ∧ ∃ l₁ l₂, l = l₁ ++ b :: l₂ ∧ ∀ a ∈ l₁, p a = false := by
  induction l with
  | nil => intro b h; simp [List.find?] at h
  | cons x xs ih =>
    intro b h
    rw [List.find?_cons] at h
    cases hpx : p x with
    | true =>
      rw [hpx] at h
      cases h
      exact ⟨hpx, [], xs, rfl, by simp⟩
    | false =>
      rw [hpx] at h
      obtain ⟨hb, l₁, l₂, rfl, hall⟩ := ih b h
      refine ⟨hb, x :: l₁, l₂, rfl, ?_⟩
      intro a ha
      rcases List.mem_cons.mp ha with rfl | ha
      · exact hpx
      · exact hall a ha

theorem find?_append_left {α : Type} {p : α → Bool} {l₁ : List α} {b : α}
    (h : l₁.find? p = some b) (l₂ : List α) : (l₁ ++ l₂).find? p = some b := by
  rw [List.find?_append, h]; rfl

theorem find?_append_right {α : Type} {p : α → Bool} {l₁ : List α}
    (h : l₁.find? p = none) (l₂ : List α) : (l₁ ++ l₂).find? p = l₂.find? p := by
  rw [List.find?_append, h]; rfl

theorem lookup_mapSet_self (l : List (String × Nat)) (d : String) (j : Nat)
    (h : (l.lookup d).isSome) :
    (l.map (fun p => if p.1 = d then (p.1, j) else p)).lookup d = some j := by
  induction l with
  | nil => simp [List.lookup] at h
  | cons x xs ih =>
    obtain ⟨a, b⟩ := x
    by_cases had : a = d
    · subst had
      simp [List.lookup_cons]
    · have hda : (d == a) = false := beq_eq_false_iff_ne.mpr (fun e => had e.symm)
      simp only [List.map_cons, if_neg had, List.lookup_cons, hda] at h ⊢
      exact ih h

theorem lookup_mapSet_ne (l : List (String × Nat)) (d a : String) (j : Nat)
    (h : a ≠ d) :
    (l.map (fun p => if p.1 = d then (p.1, j) else p)).lookup a = l.lookup a := by
  induction l with
  | nil => rfl
  | cons x xs ih =>
    obtain ⟨k, v⟩ := x
    by_cases hkd : k = d
    · subst hkd
      have hak : (a == k) = false := beq_eq_false_iff_ne.mpr h
      simp only [List.map_cons, eq_self_iff_true, if_true, List.lookup_cons, hak]
      exact ih
    · simp only [List.map_cons, if_neg hkd, List.lookup_cons]
      cases hak : (a == k) with
      | true => rfl
      | false => exact ih

theorem mapIf_append_fresh (zs : List Zone) (x : Zone) (i : Nat) (f : Zone → Zone)
    (hl : ∀ z ∈ zs, z.zid ≠ i) (hx : x.zid = i) :
    (zs ++ [x]).map (fun z => if z.zid = i then f z else z) = zs ++ [f x] := by
  rw [List.map_append]
  congr 1
  · calc zs.map (fun z => if z.zid = i then f z else z) = zs.map id := by
          exact List.map_congr_left (fun z hz => if_neg (hl z hz))
      _ = zs := List.map_id zs
  · simp [if_pos hx]

theorem rpcZoneClone_some {srv : ServerState} {zoneId : Nat} {cn : String}
    {nid : Nat} {srv1 : ServerState}
    (h : rpcZoneClone srv zoneId cn = some (nid, srv1)) :
    ∃ z, getZone srv zoneId = some z ∧ nid = srv.nextZoneId ∧
      srv1 = { srv with
        zones := srv.zones ++ [⟨srv.nextZoneId, cn, [⟨1, activeRecords z⟩], 1⟩],
        nextZoneId := srv.nextZoneId + 1 } := by
  unfold rpcZoneClone at h
  obtain ⟨z, hz, heq⟩ := Option.map_eq_some'.mp h
  injection heq with h1 h2
  exact ⟨z, hz, h1.symm, h2.symm⟩

theorem rpcZoneVersionNew_some {srv : ServerState} {i v : Nat} {srv' : ServerState}
    (h : rpcZoneVersionNew srv i = some (v, srv')) :
    ∃ z, getZone srv i = some z ∧
      srv' = updateZone srv i (fun zz =>
        { zz with zversions := zz.zversions ++ [⟨v, activeRecords zz⟩] }) := by
  unfold rpcZoneVersionNew at h
  obtain ⟨z, hz, heq⟩ := Option.map_eq_some'.mp h
  injection heq with h1 h2
  subst h1
  exact ⟨z, hz, h2.symm⟩

theorem rpcZoneRecordAdd_some {srv : ServerState} {i vers : Nat} {r : TxtRecord}
    {srv' : ServerState} (h : rpcZoneRecordAdd srv i vers r = some srv') :
    ∃ z, getZone srv i = some z ∧
      srv' = updateZone srv i (fun zz =>
        { zz with zversions := zz.zversions.map (fun v =>
            if v.vid = vers then { v with vrecords := v.vrecords ++ [r] } else v) }) := by
  unfold rpcZoneRecordAdd at h
  split at h
  · exact Option.noConfusion h
  rename_i z hz
  split at h
  · injection h with h1
    exact ⟨z, hz, h1.symm⟩
  · exact Option.noConfusion h

theorem rpcZoneVersionSet_some {srv : ServerState} {i vers : Nat}
    {srv' : ServerState} (h : rpcZoneVersionSet srv i vers = some srv') :
    ∃ z, getZone srv i = some z ∧
      srv' = updateZone srv i (fun zz => { zz with zactive := vers }) := by
  unfold rpcZoneVersionSet at h
  split at h
  · exact Option.noConfusion h
  rename_i z hz
  split at h
  · injection h with h1
    exact ⟨z, hz, h1.symm⟩
  · exact Option.noConfusion h

theorem rpcZoneSet_some {srv : ServerState} {dom : String} {j : Nat}
    {srv' : ServerState} (h : rpcZoneSet srv dom j = some srv') :
    (getZone srv j).isSome ∧ (srv.domains.lookup dom).isSome ∧
      srv' = { srv with domains := srv.domains.map (fun p =>
        if p.1 = dom then (p.1, j) else p) } := by
  unfold rpcZoneSet at h
  split at h
  · rename_i hcond
    injection h with h1
    exact ⟨hcond.1, hcond.2, h1.symm⟩
  · exact Option.noConfusion h

theorem rpcZoneDelete_some {srv : ServerState} {i : Nat} {srv' : ServerState}
    (h : rpcZoneDelete srv i = some srv') :
    (getZone srv i).isSome ∧
      srv' = { srv with zones := srv.zones.filter (fun z => z.zid ≠ i) } := by
  unfold rpcZoneDelete at h
  split at h
  · rename_i hcond
    injection h with h1
    exact ⟨hcond, h1.symm⟩
  · exact Option.noConfusion h

theorem rpcZoneSet_eq_some {srv : ServerState} {dom : String} {j : Nat}
    (h1 : (getZone srv j).isSome) (h2 : (srv.domains.lookup dom).isSome) :
    rpcZoneSet srv dom j = some { srv with domains := srv.domains.map (fun p =>
      if p.1 = dom then (p.1, j) else p) } := by
  unfold rpcZoneSet
  rw [if_pos ⟨h1, h2⟩]

theorem rpcZoneDelete_eq_some {srv : ServerState} {i : Nat}
    (h : (getZone srv i).isSome) :
    rpcZoneDelete srv i =
      some { srv with zones := srv.zones.filter (fun z => z.zid ≠ i) } := by
  unfold rpcZoneDelete
  rw [if_pos h]

theorem updateZone_frame {srv : ServerState} {i : Nat} {zs : List Zone} {x : Zone}
    (f : Zone → Zone) (hzs : srv.zones = zs ++ [x])
    (hfresh : ∀ z ∈ zs, z.zid ≠ i) (hx : x.zid = i) :
    (updateZone srv i f).zones = zs ++ [f x] ∧
    (updateZone srv i f).domains = srv.domains ∧
    (updateZone srv i f).nextZoneId = srv.nextZoneId := by
  refine ⟨?_, rfl, rfl⟩
  show srv.zones.map _ = _
  rw [hzs]
  exact mapIf_append_fresh zs x i f hfresh hx

theorem Present_some {fz : String → Option String} {pst : DNSProviderState}
    {srv : ServerState} {domain keyAuth : String} {pst' : DNSProviderState}
    {srv' : ServerState} {tr : List RpcCall}
    (h : Present fz pst srv domain keyAuth = some (pst', srv', tr)) :
    ∃ authZone nameChars zoneId newZoneId vers srv1 srv2 srv3 srv4,
      fz (challengeFqdn domain) = some authZone ∧
      chopSuffix (challengeFqdn domain).data ("." ++ authZone).data = some nameChars ∧
      rpcDomainInfo srv authZone = some zoneId ∧
      rpcZoneClone srv zoneId (zoneCloneName authZone) = some (newZoneId, srv1) ∧
      rpcZoneVersionNew srv1 newZoneId = some (vers, srv2) ∧
      rpcZoneRecordAdd srv2 newZoneId vers
        ⟨"TXT", String.mk nameChars, dns01Fingerprint keyAuth, gandiTTL⟩ = some srv3 ∧
      rpcZoneVersionSet srv3 newZoneId vers = some srv4 ∧
      rpcZoneSet srv4 authZone newZoneId = some srv' ∧
      pst' = ⟨(challengeFqdn domain, ⟨authZone, zoneId, newZoneId⟩) :: pst.inProgress⟩ ∧
      tr = [.domainInfo authZone, .zoneClone zoneId, .zoneVersionNew newZoneId,
            .zoneRecordAdd newZoneId vers
              ⟨"TXT", String.mk nameChars, dns01Fingerprint keyAuth, gandiTTL⟩,
            .zoneVersionSet newZoneId vers, .zoneSet authZone newZoneId] := by
  unfold Present at h
  split at h
  · exact Option.noConfusion h
  rename_i authZone hfz
  split at h
  · exact Option.noConfusion h
  rename_i nameChars hchop
  split at h
  · exact Option.noConfusion h
  rename_i zoneId hinfo
  split at h
  · exact Option.noConfusion h
  rename_i newZoneId srv1 hclone
  split at h
  · exact Option.noConfusion h
  rename_i vers srv2 hvn
  split at h
  · exact Option.noConfusion h
  rename_i srv3 hra
  split at h
  · exact Option.noConfusion h
  rename_i srv4 hvs
  split at h
  · exact Option.noConfusion h
  rename_i srv5 hzs
  simp only [Option.some.injEq, Prod.mk.injEq] at h
  obtain ⟨h1, h2, h3⟩ := h
  subst h1
  subst h2
  subst h3
  exact ⟨authZone, nameChars, zoneId, newZoneId, vers, srv1, srv2, srv3, srv4,
         hfz, hchop, hinfo, hclone, hvn, hra, hvs, hzs, rfl, rfl⟩

theorem Present_frame {fz : String → Option String} {pst : DNSProviderState}
    {srv : ServerState} {domain keyAuth : String} {pst' : DNSProviderState}
    {srv' : ServerState} {tr : List RpcCall}
    (hfresh : ∀ z ∈ srv.zones, z.zid ≠ srv.nextZoneId)
    (h : Present fz pst srv domain keyAuth = some (pst', srv', tr)) :
    ∃ authZone nameChars zoneId z nz,
      fz (challengeFqdn domain) = some authZone ∧
      chopSuffix (challengeFqdn domain).data ("." ++ authZone).data = some nameChars ∧
      srv.domains.lookup authZone = some zoneId ∧
      getZone srv zoneId = some z ∧
      pst' = ⟨(challengeFqdn domain, ⟨authZone, zoneId, srv.nextZoneId⟩) :: pst.inProgress⟩ ∧
      srv'.zones = srv.zones ++ [nz] ∧
      nz.zid = srv.nextZoneId ∧
      srv'.domains = srv.domains.map (fun p =>
        if p.1 = authZone then (p.1, srv.nextZoneId) else p) ∧
      srv'.nextZoneId = srv.nextZoneId + 1 := by
  obtain ⟨authZone, nameChars, zoneId, newZoneId, vers, srv1, srv2, srv3, srv4,
    hfz, hchop, hinfo, hclone, hvn, hra, hvs, hzs, hpst, htr⟩ := Present_some h
  obtain ⟨z, hz, hnid, hsrv1⟩ := rpcZoneClone_some hclone
  subst hnid
  obtain ⟨z1, hz1, hsrv2⟩ := rpcZoneVersionNew_some hvn
  obtain ⟨z2, hz2, hsrv3⟩ := rpcZoneRecordAdd_some hra
  obtain ⟨z3, hz3, hsrv4⟩ := rpcZoneVersionSet_some hvs
  obtain ⟨hg4, hl4, hsrv5⟩ := rpcZoneSet_some hzs
  have e1 : srv1.zones = srv.zones ++
      [(⟨srv.nextZoneId, zoneCloneName authZone, [⟨1, activeRecords z⟩], 1⟩ : Zone)] := by
    rw [hsrv1]
  have e1d : srv1.domains = srv.domains := by rw [hsrv1]
  have e1n : srv1.nextZoneId = srv.nextZoneId + 1 := by rw [hsrv1]
  have h2 := updateZone_frame
    (fun zz => { zz with zversions := zz.zversions ++ [⟨vers, activeRecords zz⟩] })
    e1 hfresh rfl
  rw [← hsrv2] at h2
  have h3 := updateZone_frame
    (fun zz => { zz with zversions := zz.zversions.map (fun v =>
      if v.vid = vers then { v with vrecords := v.vrecords ++
        [⟨"TXT", String.mk nameChars, dns01Fingerprint keyAuth, gandiTTL⟩] } else v) })
    h2.1 hfresh rfl
  rw [← hsrv3] at h3
  have h4 := updateZone_frame (fun zz => { zz with zactive := vers })
    h3.1 hfresh rfl
  rw [← hsrv4] at h4
  have hex : ∃ nz : Zone, srv'.zones = srv.zones ++ [nz] ∧ nz.zid = srv.nextZoneId := by
    rw [hsrv5]
    exact ⟨_, h4.1, rfl⟩
  obtain ⟨nz, hnzzones, hnzzid⟩ := hex
  have hdoms : srv'.domains = srv.domains.map (fun p =>
      if p.1 = authZone then (p.1, srv.nextZoneId) else p) := by
    rw [hsrv5]
    show srv4.domains.map _ = srv.domains.map _
    rw [h4.2.1, h3.2.1, h2.2.1, e1d]
  have hnext : srv'.nextZoneId = srv.nextZoneId + 1 := by
    rw [hsrv5]
    show srv4.nextZoneId = srv.nextZoneId + 1
    rw [h4.2.2, h3.2.2, h2.2.2, e1n]
  exact ⟨authZone, nameChars, zoneId, z, nz, hfz, hchop, hinfo, hz, hpst,
    hnzzones, hnzzid, hdoms, hnext⟩

theorem Present_CleanUp_roundTrip {fz : String → Option String}
    {pst : DNSProviderState} {srv : ServerState} {domain keyAuth : String}
    {pst' : DNSProviderState} {srv' : ServerState} {tr : List RpcCall}
    (hfresh : ∀ z ∈ srv.zones, z.zid ≠ srv.nextZoneId)
    (h : Present fz pst srv domain keyAuth = some (pst', srv', tr)) :
    ∃ pst2 srv2 tr2,
      CleanUp pst' srv' domain keyAuth = some (false, pst2, srv2, tr2) ∧
      srv2.zones = srv.zones ∧
      (∀ apex, srv2.domains.lookup apex = srv.domains.lookup apex) := by
  obtain ⟨authZone, nameChars, zoneId, z, nz, hfz, hchop, hinfo, hz, hpst,
    hnzzones, hnzzid, hdoms, hnext⟩ := Present_frame hfresh h
  have hlk : pst'.inProgress.lookup (challengeFqdn domain) =
      some ⟨authZone, zoneId, srv.nextZoneId⟩ := by
    rw [hpst]; simp [List.lookup_cons]
  have hz' : srv.zones.find? (fun zz => zz.zid == zoneId) = some z := hz
  have hgz : getZone srv' zoneId = some z := by
    show srv'.zones.find? _ = some z
    rw [hnzzones]
    exact find?_append_left hz' [nz]
  have hbase : (srv.domains.lookup authZone).isSome := by
    rw [show srv.domains.lookup authZone = some zoneId from hinfo]; rfl
  have hlkdom : (srv'.domains.lookup authZone).isSome := by
    rw [hdoms, lookup_mapSet_self srv.domains authZone srv.nextZoneId hbase]; rfl
  have hset : rpcZoneSet srv' authZone zoneId = some
      { srv' with domains := srv'.domains.map (fun p =>
          if p.1 = authZone then (p.1, zoneId) else p) } :=
    rpcZoneSet_eq_some (by rw [hgz]; rfl) hlkdom
  have hnone : srv.zones.find? (fun zz => zz.zid == srv.nextZoneId) = none :=
    List.find?_eq_none.mpr (fun x hx hb => hfresh x hx (beq_iff_eq.mp hb))
  have hgznz : getZone ({ srv' with domains := srv'.domains.map (fun p =>
      if p.1 = authZone then (p.1, zoneId) else p) } : ServerState)
      srv.nextZoneId = some nz := by
    show srv'.zones.find? _ = some nz
    rw [hnzzones, find?_append_right hnone]
    simp [List.find?_cons, beq_iff_eq.mpr hnzzid]
  have hdel := rpcZoneDelete_eq_some (i := srv.nextZoneId) (by rw [hgznz]; rfl)
  have hcl : CleanUp pst' srv' domain keyAuth = some
      (false,
       ⟨pst'.inProgress.filter (fun p => p.1 ≠ challengeFqdn domain)⟩,
       { domains := srv'.domains.map (fun p => if p.1 = authZone then (p.1, zoneId) else p),
         zones := srv'.zones.filter (fun z => z.zid ≠ srv.nextZoneId),
         nextZoneId := srv'.nextZoneId },
       [RpcCall.zoneSet authZone zoneId, RpcCall.zoneDelete srv.nextZoneId]) := by
    unfold CleanUp
    simp only [hlk, hset, hdel]
  refine ⟨_, _, _, hcl, ?_, ?_⟩
  · show srv'.zones.filter (fun z => z.zid ≠ srv.nextZoneId) = srv.zones
    rw [hnzzones, List.filter_append]
    have hl : srv.zones.filter (fun z => z.zid ≠ srv.nextZoneId) = srv.zones :=
      List.filter_eq_self.mpr (fun z hzm => decide_eq_true (hfresh z hzm))
    have hr : [nz].filter (fun z => z.zid ≠ srv.nextZoneId) = ([] : List Zone) := by
      simp [hnzzid]
    rw [hl, hr, List.append_nil]
  · intro apex
    show ((srv'.domains.map (fun p => if p.1 = authZone then (p.1, zoneId) else p)).lookup apex)
      = srv.domains.lookup apex
    by_cases hap : apex = authZone
    · subst hap
      have h1 : (srv'.domains.lookup apex).isSome := hlkdom
      rw [lookup_mapSet_self srv'.domains apex zoneId h1,
          show srv.domains.lookup apex = some zoneId from hinfo]
    · rw [lookup_mapSet_ne srv'.domains authZone apex zoneId hap, hdoms,
          lookup_mapSet_ne srv.domains authZone apex srv.nextZoneId hap]

theorem factory_recognised
    (construct : String → Except FactoryError ChallengeProvider)
    (name : String) (h : name ∈ validProviderNames) :
    NewDNSChallengeProviderByName construct name = construct name := by
  simp only [validProviderNames, List.mem_cons, List.not_mem_nil, or_false] at h
  rcases h with rfl|rfl|rfl|rfl|rfl|rfl|rfl|rfl|rfl|rfl|rfl|rfl|rfl|rfl|rfl|rfl|rfl|rfl|rfl|rfl|rfl <;>
    rfl

theorem factory_unrecognised
    (construct : String → Except FactoryError ChallengeProvider)
    (name : String) (h : name ∉ validProviderNames) :
    NewDNSChallengeProviderByName construct name =
      .error (.unsupportedProvider ("Unrecognised DNS provider: " ++ name)) := by
  have ne : ∀ s, s ∈ validProviderNames → name ≠ s := by
    intro s hs e
    exact h (e ▸ hs)
  unfold NewDNSChallengeProviderByName
  rw [if_neg (ne ("azure") (by decide)), if_neg (ne ("auroradns") (by decide)),
    if_neg (ne ("cloudflare") (by decide)), if_neg (ne ("digitalocean") (by decide)),
    if_neg (ne ("dnsimple") (by decide)), if_neg (ne ("dnsmadeeasy") (by decide)),
    if_neg (ne ("dnspod") (by decide)), if_neg (ne ("dyn") (by decide)),
    if_neg (ne ("exoscale") (by decide)), if_neg (ne ("gandi") (by decide)),
    if_neg (ne ("gcloud") (by decide)), if_neg (ne ("linode") (by decide)),
    if_neg (ne ("manual") (by decide)), if_neg (ne ("namecheap") (by decide)),
    if_neg (ne ("rackspace") (by decide)), if_neg (ne ("route53") (by decide)),
    if_neg (ne ("rfc2136") (by decide)), if_neg (ne ("vultr") (by decide)),
    if_neg (ne ("ovh") (by decide)), if_neg (ne ("pdns") (by decide)),
    if_neg (ne ("ns1") (by decide))]

/-! ## Claim theorems -/

/-- C1 counterexample: the claim describes Present as running "against a
zone whose active version is 7654321"; in the recorded scenario the version
active before Present is `1234567` — it is `1234567` that the clone call
targets, and `7654321` is the id the clone receives, never the clone
source. -/
theorem C1_counterexample :
    rpcDomainInfo testServer ("example.com.") = some 1234567 ∧
    rpcDomainInfo testServer ("example.com.") ≠ some 7654321 ∧
    Present fakeFindZoneByFqdn ⟨[]⟩ testServer ("abc.def.example.com") ("XXXX") =
      some (testPendingAfterPresent, testServerAfterPresent, presentTrace) ∧
    RpcCall.zoneClone 1234567 ∈ presentTrace ∧
    RpcCall.zoneClone 7654321 ∉ presentTrace := by
  decide

/-- C1 (amended): Present("abc.def.example.com", "", "XXXX") against the
zone whose active version is `1234567` clones it to a fresh zone `7654321`
with a distinct working version id `2`, appends the record
`{name: _acme-challenge.abc.def, value: ezRpBPY8wH8djMLYjX2uCKPwiKDkFZ1SFMJ6ZXGlHrQ, ttl: 300}`
to that working version and activates it; the subsequent CleanUp with the
same arguments reactivates version `1234567` and deletes version
`7654321`. -/
theorem C1_recorded_scenario :
    Present fakeFindZoneByFqdn ⟨[]⟩ testServer ("abc.def.example.com") ("XXXX") =
      some (testPendingAfterPresent, testServerAfterPresent, presentTrace) ∧
    clonedZone.zid = 7654321 ∧
    clonedZone.zid ≠ 1234567 ∧
    clonedZone.zactive = 2 ∧
    (⟨2, [testRecord]⟩ : ZoneVersion) ∈ clonedZone.zversions ∧
    testServerAfterPresent.domains.lookup ("example.com.") = some 7654321 ∧
    CleanUp testPendingAfterPresent testServerAfterPresent ("abc.def.example.com") ("XXXX") =
      some (false, ⟨[]⟩, testServerAfterCleanUp, cleanUpTrace) ∧
    testServerAfterCleanUp.domains.lookup ("example.com.") = some 1234567 ∧
    getZone testServerAfterCleanUp 7654321 = none := by
  decide

/-- C5 counterexample: for the unrecognised name "foo" the factory fails
with message "Unrecognised DNS provider: foo", which does not list the
valid provider names — e.g. "azure" does not occur in it. -/
theorem C5_counterexample :
    NewDNSChallengeProviderByName (fun n => .ok ⟨n⟩) ("foo") =
      .error (.unsupportedProvider ("Unrecognised DNS provider: foo")) ∧
    ¬ (∀ v ∈ validProviderNames,
        occursIn v.data ("Unrecognised DNS provider: foo").data = true) := by
  decide

/-- C5 (amended): for every provider name not recognised by the factory,
NewDNSChallengeProviderByName returns an UnsupportedProvider error whose
message identifies the offending name, "Unrecognised DNS provider: <name>"
(it does not list the valid names). -/
theorem C5_unsupported_error
    (construct : String → Except FactoryError ChallengeProvider)
    (name : String) (h : name ∉ validProviderNames) :
    NewDNSChallengeProviderByName construct name =
      .error (.unsupportedProvider ("Unrecognised DNS provider: " ++ name)) :=
  factory_unrecognised construct name h

/-- C5 witness: the amended statement at the concrete name "foo". -/
theorem C5_witness :
    NewDNSChallengeProviderByName (fun n => .ok ⟨n⟩) ("foo") =
      .error (.unsupportedProvider ("Unrecognised DNS provider: " ++ "foo")) :=
  C5_unsupported_error (fun n => .ok ⟨n⟩) ("foo") (by decide)

/-- C7: CleanUp called without a prior successful Present (no pending
cleanup state recorded for the challenge FQDN — also the situation after a
Present that failed before activating the working version, since the
pending state is only recorded after activation) does not crash: it returns
a non-fatal best-effort result, flagged as degraded, issuing no RPC and
leaving provider and server state unchanged. -/
theorem C7_cleanUp_without_present (pst : DNSProviderState) (srv : ServerState)
    (domain keyAuth : String)
    (h : pst.inProgress.lookup (challengeFqdn domain) = none) :
    CleanUp pst srv domain keyAuth = some (true, pst, srv, []) := by
  unfold CleanUp
  simp only [h]

/-- C7 witness: CleanUp with empty pending state at the recorded server. -/
theorem C7_witness :
    CleanUp ⟨[]⟩ testServer ("abc.def.example.com") ("XXXX") =
      some (true, ⟨[]⟩, testServer, []) :=
  C7_cleanUp_without_present ⟨[]⟩ testServer ("abc.def.example.com") ("XXXX") rfl

/-- C8: for every FQDN and SOA oracle, the zone locator returns the closest
enclosing candidate suffix answering authoritatively: the returned apex
satisfies the oracle, it is one of the FQDN's candidate suffixes, and every
closer candidate (every one preceding it in the closest-first candidate
list, i.e. obtained by stripping fewer labels) does not answer — so a
suffix stripped one label more than necessary is never returned when a
closer match exists. -/
theorem C8_findZone_closest (soa : String → Bool) (fqdn z : String)
    (h : findZoneByFqdn soa fqdn = some z) :
    soa z = true ∧ ∃ pre post, zoneCandidates fqdn = pre ++ z :: post ∧
      ∀ w ∈ pre, soa w = false :=
  find?_split soa (zoneCandidates fqdn) z h

/-- C8 witness: the challenge FQDN of the recorded scenario with an oracle
that is authoritative exactly at `example.com.`. -/
theorem C8_witness :
    findZoneByFqdn (fun s => s == "example.com.")
      ("_acme-challenge.abc.def.example.com.") = some ("example.com.") ∧
    ((fun s => s == "example.com.") ("example.com.") = true ∧
     ∃ pre post, zoneCandidates ("_acme-challenge.abc.def.example.com.") =
        pre ++ "example.com." :: post ∧
       ∀ w ∈ pre, (fun s => s == "example.com.") w = false) :=
  ⟨by decide, C8_findZone_closest (fun s => s == "example.com.")
    ("_acme-challenge.abc.def.example.com.") ("example.com.") (by decide)⟩

/-- C9: the factory recognises exactly the 21 names of
`validProviderNames`, by case-sensitive exact string equality, dispatching
the matched name to the per-provider constructor; every other string —
including other capitalisations such as "Gandi" — yields the nil provider
with the error "Unrecognised DNS provider: <name>". -/
theorem C9_factory_exact_recognition
    (construct : String → Except FactoryError ChallengeProvider)
    (name : String) :
    (name ∈ validProviderNames →
      NewDNSChallengeProviderByName construct name = construct name) ∧
    (name ∉ validProviderNames →
      NewDNSChallengeProviderByName construct name =
        .error (.unsupportedProvider ("Unrecognised DNS provider: " ++ name))) :=
  ⟨factory_recognised construct name, factory_unrecognised construct name⟩

/-- C9 witness: "gandi" is dispatched to its constructor while the
differently-capitalised "Gandi" is rejected with the recorded message. -/
theorem C9_witness :
    NewDNSChallengeProviderByName (fun n => .ok ⟨n⟩) ("gandi") = .ok ⟨"gandi"⟩ ∧
    NewDNSChallengeProviderByName (fun n => .ok ⟨n⟩) ("Gandi") =
      .error (.unsupportedProvider ("Unrecognised DNS provider: " ++ "Gandi")) :=
  ⟨(C9_factory_exact_recognition (fun n => .ok ⟨n⟩) ("gandi")).1 (by decide),
   (C9_factory_exact_recognition (fun n => .ok ⟨n⟩) ("Gandi")).2 (by decide)⟩

/-- C2: for every domain and token (and any server state in which the
challenge zone resolves and the clone id is fresh), Present followed
immediately by CleanUp with the same arguments succeeds non-degraded,
leaves the zone id served for every apex — in particular the active version
id of the challenge zone — equal to what it was before Present began, and
leaves the server's zone list exactly as before: the transient version
created by Present is deleted and no extra version remains. -/
theorem C2_roundTrip_invariant
    (fz : String → Option String) (pst : DNSProviderState) (srv : ServerState)
    (domain keyAuth : String) (pst' : DNSProviderState) (srv' : ServerState)
    (tr : List RpcCall)
    (hfresh : ∀ z ∈ srv.zones, z.zid ≠ srv.nextZoneId)
    (h : Present fz pst srv domain keyAuth = some (pst', srv', tr)) :
    ∃ pst2 srv2 tr2,
      CleanUp pst' srv' domain keyAuth = some (false, pst2, srv2, tr2) ∧
      srv2.zones = srv.zones ∧
      (∀ apex, srv2.domains.lookup apex = srv.domains.lookup apex) :=
  Present_CleanUp_roundTrip hfresh h

/-- C2 witness: the recorded scenario round-trips. -/
theorem C2_witness :
    (∀ z ∈ testServer.zones, z.zid ≠ testServer.nextZoneId) ∧
    ∃ pst2 srv2 tr2,
      CleanUp testPendingAfterPresent testServerAfterPresent
        ("abc.def.example.com") ("XXXX") = some (false, pst2, srv2, tr2) ∧
      srv2.zones = testServer.zones ∧
      (∀ apex, srv2.domains.lookup apex = testServer.domains.lookup apex) :=
  ⟨by decide,
   C2_roundTrip_invariant fakeFindZoneByFqdn ⟨[]⟩ testServer
     ("abc.def.example.com") ("XXXX") testPendingAfterPresent
     testServerAfterPresent presentTrace (by decide) (by decide)⟩

/-- C3: within a single Present call the remote mutation steps are strictly
ordered — the trace of every successful Present is exactly domain.info,
clone, version.new, record.add, version.set, zone.set, so the clone of the
active version (index 1) completes before the record mutation of the
working version (index 3), which completes before the working version is
activated (index 4). -/
theorem C3_present_steps_ordered
    (fz : String → Option String) (pst : DNSProviderState) (srv : ServerState)
    (domain keyAuth : String) (pst' : DNSProviderState) (srv' : ServerState)
    (tr : List RpcCall)
    (h : Present fz pst srv domain keyAuth = some (pst', srv', tr)) :
    ∃ authZone zoneId newZoneId vers txt,
      tr = [.domainInfo authZone, .zoneClone zoneId, .zoneVersionNew newZoneId,
            .zoneRecordAdd newZoneId vers txt, .zoneVersionSet newZoneId vers,
            .zoneSet authZone newZoneId] ∧
      ∃ i j k, i < j ∧ j < k ∧
        tr.get? i = some (.zoneClone zoneId) ∧
        tr.get? j = some (.zoneRecordAdd newZoneId vers txt) ∧
        tr.get? k = some (.zoneVersionSet newZoneId vers) := by
  obtain ⟨authZone, nameChars, zoneId, newZoneId, vers, srv1, srv2, srv3, srv4,
    hfz, hchop, hinfo, hclone, hvn, hra, hvs, hzs, hpst, htr⟩ := Present_some h
  subst htr
  exact ⟨authZone, zoneId, newZoneId, vers,
    ⟨"TXT", String.mk nameChars, dns01Fingerprint keyAuth, gandiTTL⟩, rfl,
    1, 3, 4, by omega, by omega, rfl, rfl, rfl⟩

/-- C3 witness: the ordering at the recorded scenario. -/
theorem C3_witness :
    ∃ authZone zoneId newZoneId vers txt,
      presentTrace = [.domainInfo authZone, .zoneClone zoneId,
        .zoneVersionNew newZoneId, .zoneRecordAdd newZoneId vers txt,
        .zoneVersionSet newZoneId vers, .zoneSet authZone newZoneId] ∧
      ∃ i j k, i < j ∧ j < k ∧
        presentTrace.get? i = some (.zoneClone zoneId) ∧
        presentTrace.get? j = some (.zoneRecordAdd newZoneId vers txt) ∧
        presentTrace.get? k = some (.zoneVersionSet newZoneId vers) :=
  C3_present_steps_ordered fakeFindZoneByFqdn ⟨[]⟩ testServer
    ("abc.def.example.com") ("XXXX") testPendingAfterPresent
    testServerAfterPresent presentTrace (by decide)

/-- C10: during Present the previously active zone is never mutated: the
server's zone list after a successful Present is exactly the old list
extended with the one fresh clone, so the pre-challenge zone — looked up by
the id `domain.info` returned — is unchanged, record set included, and the
TXT record exists only inside the appended clone. -/
theorem C10_present_frame_effect
    (fz : String → Option String) (pst : DNSProviderState) (srv : ServerState)
    (domain keyAuth : String) (pst' : DNSProviderState) (srv' : ServerState)
    (tr : List RpcCall)
    (hfresh : ∀ z ∈ srv.zones, z.zid ≠ srv.nextZoneId)
    (h : Present fz pst srv domain keyAuth = some (pst', srv', tr)) :
    ∃ authZone zoneId nz,
      fz (challengeFqdn domain) = some authZone ∧
      rpcDomainInfo srv authZone = some zoneId ∧
      getZone srv' zoneId = getZone srv zoneId ∧
      srv'.zones = srv.zones ++ [nz] ∧
      nz.zid = srv.nextZoneId ∧
      (∀ z ∈ srv.zones, z ∈ srv'.zones) := by
  obtain ⟨authZone, nameChars, zoneId, z, nz, hfz, hchop, hinfo, hz, hpst,
    hnzzones, hnzzid, hdoms, hnext⟩ := Present_frame hfresh h
  have hz' : srv.zones.find? (fun zz => zz.zid == zoneId) = some z := hz
  refine ⟨authZone, zoneId, nz, hfz, hinfo, ?_, hnzzones, hnzzid, ?_⟩
  · show srv'.zones.find? _ = srv.zones.find? _
    rw [hnzzones, find?_append_left hz' [nz], hz']
  · intro zz hzz
    rw [hnzzones]
    exact List.mem_append_left _ hzz

/-- C10 witness: the frame effect at the recorded scenario. -/
theorem C10_witness :
    ∃ authZone zoneId nz,
      fakeFindZoneByFqdn (challengeFqdn ("abc.def.example.com")) = some authZone ∧
      rpcDomainInfo testServer authZone = some zoneId ∧
      getZone testServerAfterPresent zoneId = getZone testServer zoneId ∧
      testServerAfterPresent.zones = testServer.zones ++ [nz] ∧
      nz.zid = testServer.nextZoneId ∧
      (∀ z ∈ testServer.zones, z ∈ testServerAfterPresent.zones) :=
  C10_present_frame_effect fakeFindZoneByFqdn ⟨[]⟩ testServer
    ("abc.def.example.com") ("XXXX") testPendingAfterPresent
    testServerAfterPresent presentTrace (by decide) (by decide)

/-- C6: for every recognised provider name, credentials are validated
eagerly at construction time: when a required credential is absent from the
environment (or empty), NewDNSChallengeProviderByName returns the
MissingCredential error immediately — the failure comes out of the factory
call itself, before any Present could run. -/
theorem C6_eager_missing_credential
    (required : String → List String) (env : List (String × String))
    (name v : String) (hmem : name ∈ validProviderNames)
    (hv : v ∈ required name) (hmiss : ((env.lookup v).getD ("")) = "") :
    NewDNSChallengeProviderByName (eagerConstruct required env) name =
      .error (.missingCredential name) := by
  have hne : ¬ ((required name).all
      (fun w => ((env.lookup w).getD ("")) ≠ "") = true) := by
    intro hall
    exact (of_decide_eq_true (List.all_eq_true.mp hall v hv)) hmiss
  rw [factory_recognised (eagerConstruct required env) name hmem]
  unfold eagerConstruct
  rw [if_neg hne]

/-- C6 witness: the gandi constructor with its API-key credential absent
from an empty environment fails at build time. -/
theorem C6_witness :
    NewDNSChallengeProviderByName
      (eagerConstruct (fun _ => ["GANDI_API_KEY"]) []) ("gandi") =
      .error (.missingCredential ("gandi")) :=
  C6_eager_missing_credential (fun _ => ["GANDI_API_KEY"]) [] ("gandi")
    ("GANDI_API_KEY") (by decide) (by decide) (by decide)

/-- C4: for every Present call on a domain `sub.apexBody` whose zone
resolution yields the apex `apexBody.`, the published record descriptor has
name `_acme-challenge.` followed by the subdomain part `sub` (the domain
relative to the resolved zone apex), value the fingerprint derived from the
key authorization, and the integer TTL `gandiTTL` (300). -/
theorem C4_record_descriptor
    (fz : String → Option String) (pst : DNSProviderState) (srv : ServerState)
    (sub apexBody keyAuth : String) (pst' : DNSProviderState)
    (srv' : ServerState) (tr : List RpcCall)
    (hfz : fz (challengeFqdn (sub ++ "." ++ apexBody)) = some (apexBody ++ "."))
    (h : Present fz pst srv (sub ++ "." ++ apexBody) keyAuth = some (pst', srv', tr)) :
    ∃ newZoneId vers,
      tr.get? 3 = some (.zoneRecordAdd newZoneId vers
        ⟨"TXT", "_acme-challenge." ++ sub, dns01Fingerprint keyAuth, gandiTTL⟩) := by
  obtain ⟨authZone, nameChars, zoneId, newZoneId, vers, srv1, srv2, srv3, srv4,
    hfz', hchop, hinfo, hclone, hvn, hra, hvs, hzs, hpst, htr⟩ := Present_some h
  rw [hfz] at hfz'
  have haz : authZone = apexBody ++ "." := (Option.some.inj hfz').symm
  subst haz
  have hfq : challengeFqdn (sub ++ "." ++ apexBody) =
      ("_acme-challenge." ++ sub) ++ ("." ++ (apexBody ++ ".")) := by
    unfold challengeFqdn
    simp only [String.append_assoc]
  rw [hfq, String.data_append, chopSuffix_append] at hchop
  have hnc : nameChars = ("_acme-challenge." ++ sub).data :=
    (Option.some.inj hchop).symm
  subst hnc
  subst htr
  exact ⟨newZoneId, vers, rfl⟩

/-- C4 witness: the recorded scenario, subdomain "abc.def" relative to the
apex "example.com.". -/
theorem C4_witness :
    ∃ newZoneId vers,
      presentTrace.get? 3 = some (.zoneRecordAdd newZoneId vers
        ⟨"TXT", "_acme-challenge." ++ "abc.def",
         dns01Fingerprint ("XXXX"), gandiTTL⟩) :=
  C4_record_descriptor fakeFindZoneByFqdn ⟨[]⟩ testServer ("abc.def")
    ("example.com") ("XXXX") testPendingAfterPresent testServerAfterPresent
    presentTrace (by decide) (by decide)
